import Mathlib

/-!
Verification development for the Core-Engineering-Topics repository: a
shallow embedding, in Lean 4, of the FastAPI "users" CRUD handlers
(Backend-Systems/SyncDB-FastAPI and Backend-Systems/AsyncDB-FastAPI) and of
the password-hashing comparison script
(Common-Utilities/Security-Utilities).

The handlers are pure request/response functions over an explicit store.
MongoDB documents become association lists of string keys and BSON-like
values; the MongoDB client operations used by the source (find, find_one,
insert_one, update_one with a set document, delete_one, cursor sort, skip
and limit) are modelled with their documented server semantics: the server
applies sort, then skip, then limit, whatever the order of the cursor
method calls.  Python dict operations become the corresponding association
list operations.  An HTTP handler either returns a response model, raises
an HTTPException carrying a status code and a detail string, or escapes
with an unhandled Python exception; the three outcomes are an explicit sum.
-/

/-- Model of a BSON value as stored or sent by the handlers: strings,
integers and ObjectIds (an ObjectId carries its 24 character hex
rendering). -/
inductive Val where
  | vStr (s : String)
  | vInt (n : Int)
  | vOid (s : String)
deriving DecidableEq, Repr

/-- Model of the str() conversion the handlers apply to BSON values when
serializing; on an ObjectId it yields the hex string. -/
def Val.asString : Val → String
  | .vStr s => s
  | .vInt n => toString n
  | .vOid s => s

/-- Model of a MongoDB document and of a Python dict: an association list
with unique keys, in insertion order. -/
abbrev Doc : Type := List (String × Val)

/-- Dict lookup, first match. -/
def getKey : Doc → String → Option Val
  | [], _ => none
  | (k, v) :: d, key => if k = key then some v else getKey d key

/-- Dict assignment: replace the value at the key in place, else append the
new key at the end, as Python dicts do. -/
def setKey : Doc → String → Val → Doc
  | [], key, v => [(key, v)]
  | (k, w) :: d, key, v =>
      if k = key then (k, v) :: d else (k, w) :: setKey d key v

/-- Dict pop of a key (all occurrences; dicts have unique keys, so this is
the one entry when present). -/
def popKey : Doc → String → Doc
  | [], _ => []
  | (k, w) :: d, key =>
      if k = key then popKey d key else (k, w) :: popKey d key

/-- Model of a MongoDB collection: the list of its documents. -/
abbrev Store : Type := List Doc

/-- Model of collection.find_one with an equality filter on one key:
the first document whose key holds the value. -/
def findOneBy (st : Store) (key : String) (v : Val) : Option Doc :=
  st.find? (fun d => getKey d key = some v)

/-- Application of an update document of a set operation to one document:
each listed key is assigned in order. -/
def applySet (d : Doc) (upd : List (String × Val)) : Doc :=
  upd.foldl (fun acc kv => setKey acc kv.1 kv.2) d

/-- Model of collection.update_one with an id equality filter and a set
update document: the first matching document is updated; the second
component is the matched count reported by the store. -/
def updateFirst (st : Store) (key : String) (v : Val)
    (upd : List (String × Val)) : Store × Nat :=
  match st with
  | [] => ([], 0)
  | d :: ds =>
      if getKey d key = some v then (applySet d upd :: ds, 1)
      else
        let r := updateFirst ds key v upd
        (d :: r.1, r.2)

/-- Model of collection.delete_one with an equality filter: the first
matching document is removed; the second component is the deleted count
reported by the store. -/
def deleteFirst (st : Store) (key : String) (v : Val) : Store × Nat :=
  match st with
  | [] => ([], 0)
  | d :: ds =>
      if getKey d key = some v then (ds, 1)
      else
        let r := deleteFirst ds key v
        (d :: r.1, r.2)

/-- Test for a hexadecimal character, as accepted inside an ObjectId. -/
def isHexChar (c : Char) : Bool :=
  c.isDigit || (('a' ≤ c) && (c ≤ 'f')) || (('A' ≤ c) && (c ≤ 'F'))

/-- Model of the bson ObjectId constructor acceptance test on a string:
exactly 24 hexadecimal characters; any other string makes the constructor
raise InvalidId. -/
def isValidObjectId (s : String) : Bool :=
  s.length = 24 && s.data.all isHexChar

/-- Hex digits used when rendering a fresh ObjectId. -/
def hexDigit (n : Nat) : Char :=
  if n < 10 then Char.ofNat (48 + n) else Char.ofNat (87 + (n % 16))

/-- Render a natural number as a 24 character hex string; models the
ObjectId the store assigns at insert time (the actual generation scheme of
the store is opaque to the handlers). -/
def natToHex24 (n : Nat) : String :=
  String.mk ((List.range 24).map
    (fun i => hexDigit ((n / 16 ^ (23 - i)) % 16)))

/-- Model of the ObjectId the store assigns to the next inserted
document. -/
def freshId (st : Store) : String := natToHex24 st.length

/-- Model of collection.insert_one: the store adds the document with the
given ObjectId in its id field. -/
def insertOne (st : Store) (d : Doc) (newId : String) : Store :=
  st ++ [setKey d "_id" (Val.vOid newId)]

/-- Outcome of one handler call: a returned value, a raised HTTPException
with status code and detail, or an unhandled Python exception escaping the
handler (reported by the framework as a 500 failure). -/
inductive Outcome (α : Type) where
  | ok (a : α)
  | httpError (status : Nat) (detail : String)
  | fault (msg : String)
deriving DecidableEq, Repr

/-- Response payload of the handlers: a list of documents or a single
document, mirroring the response data field typing of the source. -/
inductive RData where
  | docs (l : List Doc)
  | doc (d : Doc)
deriving DecidableEq, Repr

/-- Response model of the Level 3 and Level 6 synchronous modules, with the
optional total count; the other modules leave the count absent. -/
structure ResponseModel where
  message : Option String
  response_status : Bool
  response_data : Option RData
  total : Option Nat
deriving DecidableEq, Repr

/-- Documents carried by a response payload. -/
def RData.toDocs : Option RData → List Doc
  | none => []
  | some (.docs l) => l
  | some (.doc d) => [d]

/-- Documents carried by a handler outcome. -/
def outcomeDocs : Outcome ResponseModel → List Doc
  | .ok r => RData.toDocs r.response_data
  | _ => []

/-- Lexicographic comparison of two character lists. -/
def charsLe : List Char → List Char → Bool
  | [], _ => true
  | _ :: _, [] => false
  | a :: as, b :: bs =>
      if a = b then charsLe as bs else decide (a < b)

/-- Comparison of two optional BSON values, following the BSON type order
the store uses when sorting (an absent field sorts lowest, numbers before
strings, ObjectIds last). -/
def valLe : Option Val → Option Val → Bool
  | none, _ => true
  | some _, none => false
  | some (.vInt m), some (.vInt n) => decide (m ≤ n)
  | some (.vInt _), some _ => true
  | some (.vStr _), some (.vInt _) => false
  | some (.vStr a), some (.vStr b) => charsLe a.data b.data
  | some (.vStr _), some (.vOid _) => true
  | some (.vOid _), some (.vInt _) => false
  | some (.vOid _), some (.vStr _) => false
  | some (.vOid a), some (.vOid b) => charsLe a.data b.data

/-- Document comparison used by the cursor sort: compare the sort field of
the two documents, in the requested direction (1 ascending, -1
descending). -/
def fieldLe (field : String) (dir : Int) (d e : Doc) : Bool :=
  if dir = 1 then valLe (getKey d field) (getKey e field)
  else valLe (getKey e field) (getKey d field)

/-- Ordered insertion used by the sort model. -/
def insertLe (le : Doc → Doc → Bool) (d : Doc) : List Doc → List Doc
  | [] => [d]
  | e :: es => if le d e then d :: e :: es else e :: insertLe le d es

/-- Model of the cursor sort: a sort of the matching documents by the given
comparison.  Only the output order and multiset are relevant to the
handlers; the server sorting algorithm itself is opaque. -/
def sortDocs (le : Doc → Doc → Bool) : List Doc → List Doc
  | [] => []
  | d :: ds => insertLe le d (sortDocs le ds)

/-- Test whether the second character list appears as a contiguous run at
the head of the first. -/
def headMatches : List Char → List Char → Bool
  | _, [] => true
  | [], _ :: _ => false
  | h :: hs, n :: ns => h = n && headMatches hs ns

/-- Test whether the needle appears as a contiguous run anywhere in the
haystack. -/
def containsRun : List Char → List Char → Bool
  | [], needle => needle.isEmpty
  | h :: hs, needle => headMatches (h :: hs) needle || containsRun hs needle

/-- Model of the case insensitive regex filter the handlers build for the
username parameter, read as the substring containment the source intends
(the raw parameter is used as the pattern). -/
def ciContains (hay needle : String) : Bool :=
  containsRun (hay.map Char.toLower).data (needle.map Char.toLower).data

namespace Passlib

/-!
Model of the passlib CryptContext configured with the single bcrypt scheme,
as used by every module of the repository.  The bcrypt primitive itself is
an external dependency; it is modelled by a computable digest keyed on the
embedded salt, keeping the documented structure of the library: hashing a
password with a salt yields a dollar 2b prefixed modular crypt string that
embeds the salt, verification re-derives the hash from the embedded salt
and compares, and a hash string whose scheme cannot be identified makes
verify raise UnknownHashError instead of returning a boolean (documented
CryptContext behavior).  The random salt drawn by the library at hash time
is an explicit argument. -/

/-- Toy computable stand in for the bcrypt digest of a salt and a
password. -/
def bcryptDigest (salt password : String) : String :=
  toString ((salt ++ password).data.foldl
    (fun a c => (a * 31 + c.toNat) % 1000000007) 7)

/-- Scheme identification marker of a bcrypt modular crypt string. -/
def bcryptHead : String := "$2b$12$"

/-- Model of the bcrypt hash output for a given salt draw: head, the 22
character salt, then the digest. -/
def bcryptHash (salt password : String) : String :=
  bcryptHead ++ salt ++ bcryptDigest salt password

/-- Salt embedded in a bcrypt hash string: the 22 characters after the
head. -/
def extractSalt (h : String) : String := (h.drop 7).take 22

/-- Model of the bcrypt verification primitive: re-derive the hash from the
embedded salt and compare with the stored string. -/
def bcryptCheck (password h : String) : Bool :=
  h = bcryptHash (extractSalt h) password

/-- Model of CryptContext.identify restricted to the bcrypt scheme: the
hash must carry the bcrypt scheme marker at its head. -/
def identifiesBcrypt (h : String) : Bool := h.take 4 = "$2b$"

/-- Model of CryptContext.hash for the bcrypt scheme, with the salt draw
explicit. -/
def contextHash (salt password : String) : String := bcryptHash salt password

/-- Model of CryptContext.verify for the bcrypt scheme: a hash the context
cannot identify raises UnknownHashError; an identified hash is checked and
the boolean returned. -/
def contextVerify (password h : String) : Except String Bool :=
  if identifiesBcrypt h then .ok (bcryptCheck password h)
  else .error "UnknownHashError"

end Passlib

namespace HashScript

/-!
Embedding of Common-Utilities/Security-Utilities/Hashing-passwords, version
2 (the recommended bcrypt only pair), the one the specification adopts. -/

/-- Embedding of hash_password_bcrypt_only: a direct call of the context
hash, with the salt draw of the library explicit. -/
def hash_password_bcrypt_only (salt password : String) : String :=
  Passlib.contextHash salt password

/-- Embedding of verify_password_bcrypt_only: a direct call of the context
verify. -/
def verify_password_bcrypt_only (password hashed_password : String) :
    Except String Bool :=
  Passlib.contextVerify password hashed_password

end HashScript

namespace SyncL6

/-!
Embedding of Backend-Systems/SyncDB-FastAPI/Level6.py.  Handlers take the
collection contents as an explicit argument and return the outcome together
with the new contents where they write.  The FastAPI dependencies resolve
before the handler body runs: get_current_user supplies the serialized
caller document, admin_required additionally enforces the admin role; the
handlers below embed the handler bodies, with the resolved dependency
values as arguments.  The random bcrypt salt drawn inside hash_password is
an explicit argument. -/

/-- Embedding of hash_password: pwd_context.hash with the salt draw
explicit. -/
def hash_password (salt password : String) : String :=
  Passlib.contextHash salt password

/-- Embedding of verify_password: pwd_context.verify, which can raise on an
unidentifiable stored hash. -/
def verify_password (plain_password hashed_password : String) :
    Except String Bool :=
  Passlib.contextVerify plain_password hashed_password

/-- Opaque model of create_access_token: jwt.encode of the sub claim (the
expiry claim is real time, outside the embedded state). -/
def create_access_token (sub : String) : String := "jwt." ++ sub

/-- Embedding of serialize_user: stringify the id field, then pop the
password field.  A document without an id field would raise KeyError in
the source; store documents always carry one. -/
def serialize_user (user : Doc) : Doc :=
  match getKey user "_id" with
  | some v => popKey (setKey user "_id" (Val.vStr v.asString)) "password"
  | none => popKey user "password"

/-- Embedding of validate_object_id: the ObjectId constructor guarded by a
bare except raising a 400 HTTPException. -/
def validate_object_id (id_str : String) : Except (Nat × String) String :=
  if isValidObjectId id_str then .ok id_str
  else .error (400, "Invalid user ID")

/-- Embedding of UserCreateModel after pydantic validation (the role field
defaults to user when absent from the payload). -/
structure UserCreateModel where
  username : String
  userage : Int
  password : String
  role : String
deriving DecidableEq, Repr

/-- Embedding of UserUpdateModel: every field optional, absent fields
None. -/
structure UserUpdateModel where
  username : Option String
  userage : Option Int
  password : Option String
  role : Option String
deriving DecidableEq, Repr

/-- Update document built by update_user and update_self: the non None
fields of the body in declaration order, the password hashed. -/
def updateData (body : UserUpdateModel) (salt : String) :
    List (String × Val) :=
  (match body.username with
   | some u => [("username", Val.vStr u)]
   | none => []) ++
  (match body.userage with
   | some a => [("userage", Val.vInt a)]
   | none => []) ++
  (match body.password with
   | some p => [("password", Val.vStr (hash_password salt p))]
   | none => []) ++
  (match body.role with
   | some r => [("role", Val.vStr r)]
   | none => [])

/-- Token payload returned by the login route. -/
structure TokenResponse where
  access_token : String
  token_type : String
deriving DecidableEq, Repr

/-- Embedding of the login route: look the username up, collapse both the
missing user and the failed password check into the same 401; a stored
hash the context cannot identify escapes as an unhandled error. -/
def login (st : Store) (username password : String) :
    Outcome TokenResponse :=
  match findOneBy st "username" (Val.vStr username) with
  | none => .httpError 401 "Invalid credentials"
  | some user =>
      match getKey user "password" with
      | some (Val.vStr h) =>
          match verify_password password h with
          | .error e => .fault e
          | .ok false => .httpError 401 "Invalid credentials"
          | .ok true => .ok ⟨create_access_token username, "bearer"⟩
      | _ => .fault "KeyError"

/-- Filter document built by read_all_users: an optional case insensitive
regex on username (skipped for a falsy value) and an optional equality on
userage. -/
def listMatches (username : Option String) (userage : Option Int)
    (d : Doc) : Bool :=
  (match username with
   | some u =>
       if u = "" then true
       else
         match getKey d "username" with
         | some (Val.vStr s) => ciContains s u
         | _ => false
   | none => true) &&
  (match userage with
   | some a => getKey d "userage" = some (Val.vInt a)
   | none => true)

/-- Embedding of read_all_users: count the matches, then fetch with the
caller supplied sort field and direction, skip and limit, serializing each
record.  The sort_by string is handed to the store exactly as supplied. -/
def read_all_users (st : Store) (username : Option String)
    (userage : Option Int) (limit skip : Nat) (sort_by : String)
    (sort_order : Int) : Outcome ResponseModel :=
  let matching := st.filter (listMatches username userage)
  let users := (((sortDocs (fieldLe sort_by sort_order) matching).drop
      skip).take limit).map serialize_user
  .ok ⟨some "Users fetched successfully", true, some (.docs users),
    some matching.length⟩

/-- Embedding of read_each_user: validate the id, fetch, 404 when absent,
serialize. -/
def read_each_user (st : Store) (user_id : String) :
    Outcome ResponseModel :=
  match validate_object_id user_id with
  | .error (s, d) => .httpError s d
  | .ok oid =>
      match findOneBy st "_id" (Val.vOid oid) with
      | none => .httpError 404 "User not found"
      | some user =>
          .ok ⟨some "User fetched successfully", true,
            some (.doc (serialize_user user)), none⟩

/-- Embedding of create_user, after the admin_required dependency has
admitted the caller: reject a taken username with a 400 before inserting,
otherwise hash the password, insert, and answer with the created record,
its password popped. -/
def create_user (st : Store) (body : UserCreateModel) (salt : String) :
    Outcome ResponseModel × Store :=
  match findOneBy st "username" (Val.vStr body.username) with
  | some _ => (.httpError 400 "Username already exists", st)
  | none =>
      let user : Doc :=
        [("username", Val.vStr body.username),
         ("userage", Val.vInt body.userage),
         ("password", Val.vStr (hash_password salt body.password)),
         ("role", Val.vStr body.role)]
      let newId := freshId st
      let st' := insertOne st user newId
      let userResp := popKey (setKey user "_id" (Val.vStr newId)) "password"
      (.ok ⟨some "User successfully created", true, some (.doc userResp),
        none⟩, st')

/-- Embedding of update_user (admin gated), after the dependency has
admitted the caller: validate the id, build the update document, apply the
set update, 404 when nothing matched, then fetch and serialize the updated
record (a vanished record would make the source serialize None and
fault). -/
def update_user (st : Store) (user_id : String) (body : UserUpdateModel)
    (salt : String) : Outcome ResponseModel × Store :=
  match validate_object_id user_id with
  | .error (s, d) => (.httpError s d, st)
  | .ok oid =>
      let upd := updateData body salt
      if upd.isEmpty then
        (.ok ⟨some "No fields to update", false, none, none⟩, st)
      else
        let r := updateFirst st "_id" (Val.vOid oid) upd
        if r.2 = 0 then (.httpError 404 "User not found", r.1)
        else
          match findOneBy r.1 "_id" (Val.vOid oid) with
          | none => (.fault "TypeError", r.1)
          | some u =>
              (.ok ⟨some "User updated successfully", true,
                some (.doc (serialize_user u)), none⟩, r.1)

/-- Embedding of delete_user (admin gated), after the dependency has
admitted the caller. -/
def delete_user (st : Store) (user_id : String) :
    Outcome ResponseModel × Store :=
  match validate_object_id user_id with
  | .error (s, d) => (.httpError s d, st)
  | .ok oid =>
      let r := deleteFirst st "_id" (Val.vOid oid)
      if r.2 = 0 then (.httpError 404 "User not found", r.1)
      else (.ok ⟨some "User successfully deleted", true, none, none⟩, r.1)

/-- Embedding of update_self, after get_current_user has resolved the
caller (current_user_id is the id of the authenticated caller, of any
role): build the update document from every non None body field, the
caller supplied role included, and apply the set update to the caller
record. -/
def update_self (st : Store) (current_user_id : String)
    (body : UserUpdateModel) (salt : String) :
    Outcome ResponseModel × Store :=
  let upd := updateData body salt
  if upd.isEmpty then
    (.ok ⟨some "No fields to update", false, none, none⟩, st)
  else
    let r := updateFirst st "_id" (Val.vOid current_user_id) upd
    match findOneBy r.1 "_id" (Val.vOid current_user_id) with
    | none => (.fault "TypeError", r.1)
    | some u =>
        (.ok ⟨some "Your profile updated successfully", true,
          some (.doc (serialize_user u)), none⟩, r.1)

end SyncL6

namespace SyncL1

/-!
Embedding of Backend-Systems/SyncDB-FastAPI/Level1.py.  This level guards
nothing: the ObjectId constructor runs on the raw path parameter, a missing
record is subscripted, and the delete handler never looks at the deleted
count. -/

/-- Inline serialization of this level: stringify the id field of the
fetched document. -/
def stringifyId (user : Doc) : Doc :=
  match getKey user "_id" with
  | some v => setKey user "_id" (Val.vStr v.asString)
  | none => user

/-- Embedding of read_each_user: the ObjectId constructor is unguarded, so
a malformed id escapes as an unhandled InvalidId fault; a missing record is
subscripted, escaping as an unhandled TypeError fault. -/
def read_each_user (st : Store) (user_id : String) :
    Outcome ResponseModel :=
  if isValidObjectId user_id then
    match findOneBy st "_id" (Val.vOid user_id) with
    | none => .fault "TypeError"
    | some user =>
        .ok ⟨some "User fetched successfully", true,
          some (.doc (stringifyId user)), none⟩
  else .fault "InvalidId"

/-- Embedding of delete_item: the ObjectId constructor is unguarded, the
deleted count is ignored, and the success response is returned whatever the
store reported. -/
def delete_item (st : Store) (user_id : String) :
    Outcome ResponseModel × Store :=
  if isValidObjectId user_id then
    let r := deleteFirst st "_id" (Val.vOid user_id)
    (.ok ⟨some "User successfully Delted", true, none, none⟩, r.1)
  else (.fault "InvalidId", st)

end SyncL1

namespace SyncL2

/-!
Embedding of Backend-Systems/SyncDB-FastAPI/Level2.py (the parts the claims
touch): the guarded update handler with its partial set update. -/

/-- Embedding of serialize_user of this level: stringify the id field (no
password exists at this level). -/
def serialize_user (user : Doc) : Doc :=
  match getKey user "_id" with
  | some v => setKey user "_id" (Val.vStr v.asString)
  | none => user

/-- Embedding of UserUpdateModel: both fields optional. -/
structure UserUpdateModel where
  username : Option String
  userage : Option Int
deriving DecidableEq, Repr

/-- Update document built by update_user: the non None fields of the body
in declaration order. -/
def updateData (body : UserUpdateModel) : List (String × Val) :=
  (match body.username with
   | some u => [("username", Val.vStr u)]
   | none => []) ++
  (match body.userage with
   | some a => [("userage", Val.vInt a)]
   | none => [])

/-- Embedding of update_user: guarded id parse, partial set update of the
supplied fields only, 404 when nothing matched, serialized record
answer. -/
def update_user (st : Store) (user_id : String) (body : UserUpdateModel) :
    Outcome ResponseModel × Store :=
  if isValidObjectId user_id then
    let upd := updateData body
    if upd.isEmpty then
      (.ok ⟨some "No fields to update", false, none, none⟩, st)
    else
      let r := updateFirst st "_id" (Val.vOid user_id) upd
      if r.2 = 0 then (.httpError 404 "User not found", r.1)
      else
        match findOneBy r.1 "_id" (Val.vOid user_id) with
        | none => (.fault "TypeError", r.1)
        | some u =>
            (.ok ⟨some "User updated successfully", true,
              some (.doc (serialize_user u)), none⟩, r.1)
  else (.httpError 400 "Invalid user ID", st)

end SyncL2

namespace SyncL3

/-- Embedding of validate_object_id of
Backend-Systems/SyncDB-FastAPI/Level3.py: the ObjectId constructor guarded
by a bare except raising a 400 HTTPException. -/
def validate_object_id (id_str : String) : Except (Nat × String) String :=
  if isValidObjectId id_str then .ok id_str
  else .error (400, "Invalid user ID")

end SyncL3

namespace AsyncL1

/-!
Embedding of Backend-Systems/AsyncDB-FastAPI/Level1.py (the parts the
claims touch): the guarded delete handler checking the deleted count. -/

/-- Embedding of delete_user: guarded id parse, delete, 404 when the store
deleted nothing. -/
def delete_user (st : Store) (user_id : String) :
    Outcome ResponseModel × Store :=
  if isValidObjectId user_id then
    let r := deleteFirst st "_id" (Val.vOid user_id)
    if r.2 = 0 then (.httpError 404 "User not found", r.1)
    else (.ok ⟨some "User successfully deleted", true, none, none⟩, r.1)
  else (.httpError 400 "Invalid user ID", st)

end AsyncL1

namespace AsyncL3

/-!
Embedding of Backend-Systems/AsyncDB-FastAPI/Level3.py (the parts the
claims touch): the list handler with filters, pagination and sorting. -/

/-- Embedding of serialize_user of this level: stringify the id field. -/
def serialize_user (user : Doc) : Doc :=
  match getKey user "_id" with
  | some v => setKey user "_id" (Val.vStr v.asString)
  | none => user

/-- Filter document built by read_all_users: an optional case insensitive
regex on username (skipped for a falsy value) and an optional inclusive
age range. -/
def listMatches (username : Option String) (min_age max_age : Option Int)
    (d : Doc) : Bool :=
  (match username with
   | some u =>
       if u = "" then true
       else
         match getKey d "username" with
         | some (Val.vStr s) => ciContains s u
         | _ => false
   | none => true) &&
  (match min_age, max_age with
   | none, none => true
   | _, _ =>
       match getKey d "userage" with
       | some (Val.vInt a) =>
           (match min_age with
            | some lo => decide (lo ≤ a)
            | none => true) &&
           (match max_age with
            | some hi => decide (a ≤ hi)
            | none => true)
       | _ => false)

/-- Sort direction derived from the sort_order parameter: asc gives the
ascending direction, anything else descending. -/
def dirOf (sort_order : String) : Int :=
  if sort_order.toLower = "asc" then 1 else -1

/-- Embedding of read_all_users: filter, sort by the supplied field, skip
and limit, serializing each record. -/
def read_all_users (st : Store) (username : Option String)
    (min_age max_age : Option Int) (skip limit : Nat) (sort_by : String)
    (sort_order : String) : Outcome ResponseModel :=
  let matching := st.filter (listMatches username min_age max_age)
  let users := (((sortDocs (fieldLe sort_by (dirOf sort_order))
      matching).drop skip).take limit).map serialize_user
  .ok ⟨some "Users fetched successfully", true, some (.docs users), none⟩

end AsyncL3

namespace AsyncL4

/-!
Embedding of Backend-Systems/AsyncDB-FastAPI/Level4.py: JWT protected CRUD
with bcrypt hashing.  The get_current_user dependency resolves before the
handler body runs; the protected handlers below embed the bodies, which do
not consult the caller further. -/

/-- Embedding of serialize_user: stringify the id field, then delete the
password field when present. -/
def serialize_user (user : Doc) : Doc :=
  match getKey user "_id" with
  | some v => popKey (setKey user "_id" (Val.vStr v.asString)) "password"
  | none => popKey user "password"

/-- Embedding of hash_password with the salt draw explicit. -/
def hash_password (salt password : String) : String :=
  Passlib.contextHash salt password

/-- Embedding of verify_password. -/
def verify_password (plain_password hashed_password : String) :
    Except String Bool :=
  Passlib.contextVerify plain_password hashed_password

/-- Opaque model of create_access_token: jwt.encode of the sub claim. -/
def create_access_token (sub : String) : String := "jwt." ++ sub

/-- Embedding of UserCreateModel. -/
structure UserCreateModel where
  username : String
  password : String
  userage : Int
deriving DecidableEq, Repr

/-- Embedding of UserUpdateModel: every field optional. -/
structure UserUpdateModel where
  username : Option String
  password : Option String
  userage : Option Int
deriving DecidableEq, Repr

/-- Update document built by update_user: the non None fields of the body
in declaration order, the password entry replaced by its hash in place. -/
def updateData (body : UserUpdateModel) (salt : String) :
    List (String × Val) :=
  (match body.username with
   | some u => [("username", Val.vStr u)]
   | none => []) ++
  (match body.password with
   | some p => [("password", Val.vStr (hash_password salt p))]
   | none => []) ++
  (match body.userage with
   | some a => [("userage", Val.vInt a)]
   | none => [])

/-- Token payload returned by the login route. -/
structure Token where
  access_token : String
  token_type : String
deriving DecidableEq, Repr

/-- Embedding of the login route: look the username up, collapse both the
missing user and the failed password check into the same 401; the sub
claim is the stringified record id. -/
def login (st : Store) (username password : String) : Outcome Token :=
  match findOneBy st "username" (Val.vStr username) with
  | none => .httpError 401 "Invalid username or password"
  | some user =>
      match getKey user "password" with
      | some (Val.vStr h) =>
          match verify_password password h with
          | .error e => .fault e
          | .ok false => .httpError 401 "Invalid username or password"
          | .ok true =>
              .ok ⟨create_access_token
                (((getKey user "_id").getD (Val.vStr "")).asString),
                "bearer"⟩
      | _ => .fault "KeyError"

/-- Embedding of create_user: hash, insert, answer with the new id in the
message and no record data. -/
def create_user (st : Store) (body : UserCreateModel) (salt : String) :
    Outcome ResponseModel × Store :=
  let user : Doc :=
    [("username", Val.vStr body.username),
     ("password", Val.vStr (hash_password salt body.password)),
     ("userage", Val.vInt body.userage)]
  let newId := freshId st
  (.ok ⟨some ("User successfully created with ID-" ++ newId), true, none,
    none⟩, insertOne st user newId)

/-- Embedding of read_all_users (protected): every record serialized. -/
def read_all_users (st : Store) : Outcome ResponseModel :=
  .ok ⟨some "Users fetched successfully", true,
    some (.docs (st.map serialize_user)), none⟩

/-- Embedding of read_each_user (protected): guarded id parse, 404 when
absent, serialized record. -/
def read_each_user (st : Store) (user_id : String) :
    Outcome ResponseModel :=
  if isValidObjectId user_id then
    match findOneBy st "_id" (Val.vOid user_id) with
    | none => .httpError 404 "User not found"
    | some user =>
        .ok ⟨some "User fetched successfully", true,
          some (.doc (serialize_user user)), none⟩
  else .httpError 400 "Invalid user ID"

/-- Embedding of update_user (protected): guarded id parse, partial set
update of the supplied fields with the password hashed, 404 when nothing
matched, serialized record answer. -/
def update_user (st : Store) (user_id : String) (body : UserUpdateModel)
    (salt : String) : Outcome ResponseModel × Store :=
  if isValidObjectId user_id then
    let upd := updateData body salt
    if upd.isEmpty then
      (.ok ⟨some "No fields to update", false, none, none⟩, st)
    else
      let r := updateFirst st "_id" (Val.vOid user_id) upd
      if r.2 = 0 then (.httpError 404 "User not found", r.1)
      else
        match findOneBy r.1 "_id" (Val.vOid user_id) with
        | none => (.fault "TypeError", r.1)
        | some u =>
            (.ok ⟨some "User updated successfully", true,
              some (.doc (serialize_user u)), none⟩, r.1)
  else (.httpError 400 "Invalid user ID", st)

/-- Embedding of delete_user (protected): guarded id parse, 404 when the
store deleted nothing. -/
def delete_user (st : Store) (user_id : String) :
    Outcome ResponseModel × Store :=
  if isValidObjectId user_id then
    let r := deleteFirst st "_id" (Val.vOid user_id)
    if r.2 = 0 then (.httpError 404 "User not found", r.1)
    else (.ok ⟨some "User successfully deleted", true, none, none⟩, r.1)
  else (.httpError 400 "Invalid user ID", st)

end AsyncL4

namespace AsyncL6

/-!
Embedding of Backend-Systems/AsyncDB-FastAPI/Level6.py (the parts the
claims touch).  The authenticated caller document resolved by
get_current_user is an explicit argument; require_admin and the inline
self or admin checks run inside the handler bodies, as in the source. -/

/-- Embedding of serialize_user: stringify the id field, then delete the
password field when present. -/
def serialize_user (user : Doc) : Doc :=
  match getKey user "_id" with
  | some v => popKey (setKey user "_id" (Val.vStr v.asString)) "password"
  | none => popKey user "password"

/-- Embedding of hash_password with the salt draw explicit. -/
def hash_password (salt password : String) : String :=
  Passlib.contextHash salt password

/-- Embedding of require_admin: 403 unless the caller role is admin. -/
def isAdmin (current_user : Doc) : Bool :=
  getKey current_user "role" = some (Val.vStr "admin")

/-- Embedding of UserCreateModel (role defaults to user when absent). -/
structure UserCreateModel where
  username : String
  password : String
  userage : Int
  role : String
deriving DecidableEq, Repr

/-- Embedding of UserUpdateModel of this level: no role field exists, so a
role entry in the payload is discarded by the model layer. -/
structure UserUpdateModel where
  username : Option String
  password : Option String
  userage : Option Int
deriving DecidableEq, Repr

/-- Update document built by update_user: the non None fields of the body
in declaration order, the password entry replaced by its hash in place. -/
def updateData (body : UserUpdateModel) (salt : String) :
    List (String × Val) :=
  (match body.username with
   | some u => [("username", Val.vStr u)]
   | none => []) ++
  (match body.password with
   | some p => [("password", Val.vStr (hash_password salt p))]
   | none => []) ++
  (match body.userage with
   | some a => [("userage", Val.vInt a)]
   | none => [])

/-- Embedding of create_user: require_admin, then insert without any
uniqueness check; no record data is returned. -/
def create_user (st : Store) (current_user : Doc) (body : UserCreateModel)
    (salt : String) : Outcome ResponseModel × Store :=
  if isAdmin current_user then
    let user : Doc :=
      [("username", Val.vStr body.username),
       ("password", Val.vStr (hash_password salt body.password)),
       ("userage", Val.vInt body.userage),
       ("role", Val.vStr body.role)]
    let newId := freshId st
    (.ok ⟨some ("User successfully created with ID-" ++ newId), true, none,
      none⟩, insertOne st user newId)
  else (.httpError 403 "Admin access required", st)

/-- Embedding of read_all_users: require_admin, then filter, sort by the
supplied field, skip and limit, serializing each record.  The sort_by
string is handed to the store exactly as supplied. -/
def read_all_users (st : Store) (current_user : Doc)
    (username : Option String) (min_age max_age : Option Int)
    (skip limit : Nat) (sort_by : String) (sort_order : String) :
    Outcome ResponseModel :=
  if isAdmin current_user then
    let matching := st.filter (AsyncL3.listMatches username min_age max_age)
    let dir : Int := if sort_order.toLower = "asc" then 1 else -1
    let users := (((sortDocs (fieldLe sort_by dir) matching).drop
        skip).take limit).map serialize_user
    .ok ⟨some "Users fetched successfully", true, some (.docs users), none⟩
  else .httpError 403 "Admin access required"

/-- Embedding of update_user (self or admin): guarded id parse, update
document from the supplied fields with the password hashed, the self or
admin check, partial set update, 404 when nothing matched, serialized
record answer. -/
def update_user (st : Store) (current_user : Doc) (user_id : String)
    (body : UserUpdateModel) (salt : String) :
    Outcome ResponseModel × Store :=
  if isValidObjectId user_id then
    let upd := updateData body salt
    if upd.isEmpty then
      (.ok ⟨some "No fields to update", false, none, none⟩, st)
    else
      if !isAdmin current_user &&
          !(((getKey current_user "_id").getD
              (Val.vStr "")).asString = user_id) then
        (.httpError 403 "Not authorized to update this user", st)
      else
        let r := updateFirst st "_id" (Val.vOid user_id) upd
        if r.2 = 0 then (.httpError 404 "User not found", r.1)
        else
          match findOneBy r.1 "_id" (Val.vOid user_id) with
          | none => (.fault "TypeError", r.1)
          | some u =>
              (.ok ⟨some "User updated successfully", true,
                some (.doc (serialize_user u)), none⟩, r.1)
  else (.httpError 400 "Invalid user ID", st)

end AsyncL6

/-- Property of a handler outcome: every document placed in the response
payload lacks the stored password field. -/
def pwFree (o : Outcome ResponseModel) : Prop :=
  ∀ d ∈ outcomeDocs o, getKey d "password" = none

/-- Number of documents of the store whose key holds the value; at most one
for the id key under the store uniqueness invariant. -/
def countBy (st : Store) (key : String) (v : Val) : Nat :=
  (st.filter (fun d => getKey d key = some v)).length

theorem getKey_popKey_self : ∀ (d : Doc) (k : String),
    getKey (popKey d k) k = none
  | [], _ => rfl
  | (k1, v) :: d, k => by
      by_cases h : k1 = k
      · simpa [popKey, h] using getKey_popKey_self d k
      · simpa [popKey, h, getKey] using getKey_popKey_self d k

theorem syncL6_serialize_user_pw (u : Doc) :
    getKey (SyncL6.serialize_user u) "password" = none := by
  unfold SyncL6.serialize_user
  cases getKey u "_id" <;> simp [getKey_popKey_self]

theorem asyncL4_serialize_user_pw (u : Doc) :
    getKey (AsyncL4.serialize_user u) "password" = none := by
  unfold AsyncL4.serialize_user
  cases getKey u "_id" <;> simp [getKey_popKey_self]

theorem pw_none_of_mem_map (f : Doc → Doc)
    (hf : ∀ u, getKey (f u) "password" = none) (l : List Doc) :
    ∀ d ∈ l.map f, getKey d "password" = none := by
  intro d hd
  rcases List.mem_map.mp hd with ⟨u, _, rfl⟩
  exact hf u

theorem syncL6_read_all_users_pwFree (st : Store) (username : Option String)
    (userage : Option Int) (limit skip : Nat) (sort_by : String)
    (sort_order : Int) :
    pwFree (SyncL6.read_all_users st username userage limit skip sort_by
      sort_order) := by
  intro d hd
  unfold SyncL6.read_all_users at hd
  simp only [outcomeDocs, RData.toDocs] at hd
  exact pw_none_of_mem_map _ syncL6_serialize_user_pw _ d hd

theorem syncL6_read_each_user_pwFree (st : Store) (user_id : String) :
    pwFree (SyncL6.read_each_user st user_id) := by
  intro d hd
  unfold SyncL6.read_each_user at hd
  split at hd
  · simp [outcomeDocs, RData.toDocs] at hd
  · split at hd
    · simp [outcomeDocs, RData.toDocs] at hd
    · simp only [outcomeDocs, RData.toDocs, List.mem_singleton] at hd
      subst hd
      exact syncL6_serialize_user_pw _

theorem syncL6_create_user_pwFree (st : Store)
    (body : SyncL6.UserCreateModel) (salt : String) :
    pwFree (SyncL6.create_user st body salt).1 := by
  intro d hd
  unfold SyncL6.create_user at hd
  split at hd
  · simp [outcomeDocs, RData.toDocs] at hd
  · simp only [outcomeDocs, RData.toDocs, List.mem_singleton] at hd
    subst hd
    exact getKey_popKey_self _ _

theorem syncL6_update_user_pwFree (st : Store) (user_id : String)
    (body : SyncL6.UserUpdateModel) (salt : String) :
    pwFree (SyncL6.update_user st user_id body salt).1 := by
  intro d hd
  unfold SyncL6.update_user at hd
  dsimp only at hd
  split at hd
  · simp [outcomeDocs, RData.toDocs] at hd
  · split at hd
    · simp [outcomeDocs, RData.toDocs] at hd
    · split at hd
      · simp [outcomeDocs, RData.toDocs] at hd
      · split at hd
        · simp [outcomeDocs, RData.toDocs] at hd
        · simp only [outcomeDocs, RData.toDocs, List.mem_singleton] at hd
          subst hd
          exact syncL6_serialize_user_pw _

theorem syncL6_delete_user_pwFree (st : Store) (user_id : String) :
    pwFree (SyncL6.delete_user st user_id).1 := by
  intro d hd
  unfold SyncL6.delete_user at hd
  dsimp only at hd
  split at hd
  · simp [outcomeDocs, RData.toDocs] at hd
  · split at hd <;> simp [outcomeDocs, RData.toDocs] at hd

theorem syncL6_update_self_pwFree (st : Store) (current_user_id : String)
    (body : SyncL6.UserUpdateModel) (salt : String) :
    pwFree (SyncL6.update_self st current_user_id body salt).1 := by
  intro d hd
  unfold SyncL6.update_self at hd
  dsimp only at hd
  split at hd
  · simp [outcomeDocs, RData.toDocs] at hd
  · split at hd
    · simp [outcomeDocs, RData.toDocs] at hd
    · simp only [outcomeDocs, RData.toDocs, List.mem_singleton] at hd
      subst hd
      exact syncL6_serialize_user_pw _

theorem asyncL4_read_all_users_pwFree (st : Store) :
    pwFree (AsyncL4.read_all_users st) := by
  intro d hd
  unfold AsyncL4.read_all_users at hd
  simp only [outcomeDocs, RData.toDocs] at hd
  exact pw_none_of_mem_map _ asyncL4_serialize_user_pw _ d hd

theorem asyncL4_read_each_user_pwFree (st : Store) (user_id : String) :
    pwFree (AsyncL4.read_each_user st user_id) := by
  intro d hd
  unfold AsyncL4.read_each_user at hd
  split at hd
  · split at hd
    · simp [outcomeDocs, RData.toDocs] at hd
    · simp only [outcomeDocs, RData.toDocs, List.mem_singleton] at hd
      subst hd
      exact asyncL4_serialize_user_pw _
  · simp [outcomeDocs, RData.toDocs] at hd

theorem asyncL4_create_user_pwFree (st : Store)
    (body : AsyncL4.UserCreateModel) (salt : String) :
    pwFree (AsyncL4.create_user st body salt).1 := by
  intro d hd
  unfold AsyncL4.create_user at hd
  simp [outcomeDocs, RData.toDocs] at hd

theorem asyncL4_update_user_pwFree (st : Store) (user_id : String)
    (body : AsyncL4.UserUpdateModel) (salt : String) :
    pwFree (AsyncL4.update_user st user_id body salt).1 := by
  intro d hd
  unfold AsyncL4.update_user at hd
  dsimp only at hd
  split at hd
  · split at hd
    · simp [outcomeDocs, RData.toDocs] at hd
    · split at hd
      · simp [outcomeDocs, RData.toDocs] at hd
      · split at hd
        · simp [outcomeDocs, RData.toDocs] at hd
        · simp only [outcomeDocs, RData.toDocs, List.mem_singleton] at hd
          subst hd
          exact asyncL4_serialize_user_pw _
  · simp [outcomeDocs, RData.toDocs] at hd

theorem asyncL4_delete_user_pwFree (st : Store) (user_id : String) :
    pwFree (AsyncL4.delete_user st user_id).1 := by
  intro d hd
  unfold AsyncL4.delete_user at hd
  dsimp only at hd
  split at hd
  · split at hd <;> simp [outcomeDocs, RData.toDocs] at hd
  · simp [outcomeDocs, RData.toDocs] at hd

/-- C2: every outbound response of the list, read one, create, update and
delete operations (and the self update) of the authenticated levels has the
stored password field absent from every record it carries: the serializer
removes the password field from every record, and every record placed in a
response envelope went through the serializer or had its password popped
explicitly. -/
theorem c2_password_stripped_everywhere :
    (∀ u : Doc, getKey (SyncL6.serialize_user u) "password" = none) ∧
    (∀ u : Doc, getKey (AsyncL4.serialize_user u) "password" = none) ∧
    (∀ st username userage limit skip sort_by sort_order,
      pwFree (SyncL6.read_all_users st username userage limit skip sort_by
        sort_order)) ∧
    (∀ st user_id, pwFree (SyncL6.read_each_user st user_id)) ∧
    (∀ st body salt, pwFree (SyncL6.create_user st body salt).1) ∧
    (∀ st user_id body salt,
      pwFree (SyncL6.update_user st user_id body salt).1) ∧
    (∀ st user_id, pwFree (SyncL6.delete_user st user_id).1) ∧
    (∀ st current_user_id body salt,
      pwFree (SyncL6.update_self st current_user_id body salt).1) ∧
    (∀ st, pwFree (AsyncL4.read_all_users st)) ∧
    (∀ st user_id, pwFree (AsyncL4.read_each_user st user_id)) ∧
    (∀ st body salt, pwFree (AsyncL4.create_user st body salt).1) ∧
    (∀ st user_id body salt,
      pwFree (AsyncL4.update_user st user_id body salt).1) ∧
    (∀ st user_id, pwFree (AsyncL4.delete_user st user_id).1) :=
  ⟨syncL6_serialize_user_pw, asyncL4_serialize_user_pw,
   syncL6_read_all_users_pwFree, syncL6_read_each_user_pwFree,
   syncL6_create_user_pwFree, syncL6_update_user_pwFree,
   syncL6_delete_user_pwFree, syncL6_update_self_pwFree,
   asyncL4_read_all_users_pwFree, asyncL4_read_each_user_pwFree,
   asyncL4_create_user_pwFree, asyncL4_update_user_pwFree,
   asyncL4_delete_user_pwFree⟩

/-- C2 witness: the serializer at a concrete record carrying a password
field, through the claim theorem. -/
theorem c2_password_stripped_everywhere_witness :
    getKey (SyncL6.serialize_user
      [("_id", Val.vOid "aaaaaaaaaaaaaaaaaaaaaaaa"),
       ("username", Val.vStr "alice"),
       ("password", Val.vStr "h")]) "password" = none :=
  c2_password_stripped_everywhere.1 _

/-- C1: the self service update of the synchronous Level 6 module does not
reject a caller supplied role: starting from a stored non admin user, a
self update whose payload carries only a role field of admin leaves the
store with that user holding the admin role.  The update document is built
from every non None body field, role included, so the role elevation the
specification forbids goes through. -/
theorem c1_update_self_applies_role_change :
    getKey [("_id", Val.vOid "aaaaaaaaaaaaaaaaaaaaaaaa"),
       ("username", Val.vStr "bob"), ("userage", Val.vInt 30),
       ("password", Val.vStr "h"), ("role", Val.vStr "user")] "role"
      = some (Val.vStr "user") ∧
    (SyncL6.update_self
      [[("_id", Val.vOid "aaaaaaaaaaaaaaaaaaaaaaaa"),
        ("username", Val.vStr "bob"), ("userage", Val.vInt 30),
        ("password", Val.vStr "h"), ("role", Val.vStr "user")]]
      "aaaaaaaaaaaaaaaaaaaaaaaa"
      ⟨none, none, none, some "admin"⟩ "SALT").2
      = [[("_id", Val.vOid "aaaaaaaaaaaaaaaaaaaaaaaa"),
          ("username", Val.vStr "bob"), ("userage", Val.vInt 30),
          ("password", Val.vStr "h"), ("role", Val.vStr "admin")]] := by
  constructor
  · rfl
  · rfl

/-- C4: the synchronous Level 1 single record read hands the raw path
parameter to the ObjectId constructor with no guard, so the malformed
identifier abc escapes as an unhandled InvalidId fault instead of a 400,
for every store contents; the Level 3 helper of the same variant performs
the guarded parse the specification requires, rejecting the same
identifier with a 400 before any store call. -/
theorem c4_sync_level1_unvalidated_identifier :
    (∀ st : Store, SyncL1.read_each_user st "abc" = .fault "InvalidId") ∧
    SyncL3.validate_object_id "abc" = .error (400, "Invalid user ID") :=
  ⟨fun _ => rfl, rfl⟩

/-- C5: both Level 6 list handlers accept any sort_by value: the handler
never fails with an InvalidSortField error for any parameter values, and a
caller supplied sort_by of password reaches the store query uninterpreted,
as witnessed by the returned page order following the stored password
hashes (reversed against the username order on the same store). -/
theorem c5_sort_by_passed_uninterpreted :
    (∀ (st : Store) (username : Option String) (userage : Option Int)
      (limit skip : Nat) (sort_by : String) (sort_order : Int),
      ∃ r, SyncL6.read_all_users st username userage limit skip sort_by
        sort_order = .ok r) ∧
    outcomeDocs (SyncL6.read_all_users
      [[("_id", Val.vOid "aaaaaaaaaaaaaaaaaaaaaaaa"),
        ("username", Val.vStr "alice"), ("userage", Val.vInt 30),
        ("password", Val.vStr "zzz"), ("role", Val.vStr "user")],
       [("_id", Val.vOid "bbbbbbbbbbbbbbbbbbbbbbbb"),
        ("username", Val.vStr "bob"), ("userage", Val.vInt 25),
        ("password", Val.vStr "aaa"), ("role", Val.vStr "user")]]
      none none 10 0 "password" 1) =
      [[("_id", Val.vStr "bbbbbbbbbbbbbbbbbbbbbbbb"),
        ("username", Val.vStr "bob"), ("userage", Val.vInt 25),
        ("role", Val.vStr "user")],
       [("_id", Val.vStr "aaaaaaaaaaaaaaaaaaaaaaaa"),
        ("username", Val.vStr "alice"), ("userage", Val.vInt 30),
        ("role", Val.vStr "user")]] ∧
    outcomeDocs (SyncL6.read_all_users
      [[("_id", Val.vOid "aaaaaaaaaaaaaaaaaaaaaaaa"),
        ("username", Val.vStr "alice"), ("userage", Val.vInt 30),
        ("password", Val.vStr "zzz"), ("role", Val.vStr "user")],
       [("_id", Val.vOid "bbbbbbbbbbbbbbbbbbbbbbbb"),
        ("username", Val.vStr "bob"), ("userage", Val.vInt 25),
        ("password", Val.vStr "aaa"), ("role", Val.vStr "user")]]
      none none 10 0 "username" 1) =
      [[("_id", Val.vStr "aaaaaaaaaaaaaaaaaaaaaaaa"),
        ("username", Val.vStr "alice"), ("userage", Val.vInt 30),
        ("role", Val.vStr "user")],
       [("_id", Val.vStr "bbbbbbbbbbbbbbbbbbbbbbbb"),
        ("username", Val.vStr "bob"), ("userage", Val.vInt 25),
        ("role", Val.vStr "user")]] ∧
    (∀ (st : Store) (username : Option String)
      (min_age max_age : Option Int) (skip limit : Nat)
      (sort_by sort_order : String),
      ∃ r, AsyncL6.read_all_users st [("role", Val.vStr "admin")] username
        min_age max_age skip limit sort_by sort_order = .ok r) := by
  refine ⟨fun st u a l s sb so => ⟨_, rfl⟩, by decide, by decide,
    fun st u lo hi s l sb so => ⟨_, rfl⟩⟩

/-- C3 counterexample: on a store already holding alice, the synchronous
Level 6 create rejects the duplicate with status 400, not the 409 the
claim states, and the asynchronous Level 6 create performs no uniqueness
check at all: called by an admin with the duplicate username it grows the
store by one record. -/
theorem c3_counterexample_duplicate_username :
    (SyncL6.create_user
      [[("_id", Val.vOid "aaaaaaaaaaaaaaaaaaaaaaaa"),
        ("username", Val.vStr "alice"), ("userage", Val.vInt 30),
        ("password", Val.vStr "h"), ("role", Val.vStr "user")]]
      ⟨"alice", 22, "secret1", "user"⟩ "SALT").1
      = .httpError 400 "Username already exists" ∧
    ((AsyncL6.create_user
      [[("_id", Val.vOid "aaaaaaaaaaaaaaaaaaaaaaaa"),
        ("username", Val.vStr "alice"), ("userage", Val.vInt 30),
        ("password", Val.vStr "h"), ("role", Val.vStr "user")]]
      [("role", Val.vStr "admin")]
      ⟨"alice", "secret1", 22, "user"⟩ "SALT").2).length = 2 :=
  ⟨rfl, rfl⟩

/-- C3 amended: on a create whose username is already stored, the
synchronous Level 6 service checks uniqueness before inserting and rejects
with status 400 (not 409), leaving the store unchanged; with a fresh
username it inserts one record; the asynchronous Level 6 service performs
no uniqueness check and always inserts one record for an admitted admin
caller, duplicates included. -/
theorem c3_duplicate_username_rejected_400 :
    (∀ (st : Store) (body : SyncL6.UserCreateModel) (salt : String)
      (u : Doc),
      findOneBy st "username" (Val.vStr body.username) = some u →
      SyncL6.create_user st body salt
        = (.httpError 400 "Username already exists", st)) ∧
    (∀ (st : Store) (body : SyncL6.UserCreateModel) (salt : String),
      findOneBy st "username" (Val.vStr body.username) = none →
      ((SyncL6.create_user st body salt).2).length = st.length + 1) ∧
    (∀ (st : Store) (current_user : Doc) (body : AsyncL6.UserCreateModel)
      (salt : String),
      AsyncL6.isAdmin current_user = true →
      ((AsyncL6.create_user st current_user body salt).2).length
        = st.length + 1) := by
  refine ⟨?_, ?_, ?_⟩
  · intro st body salt u h
    unfold SyncL6.create_user
    rw [h]
  · intro st body salt h
    unfold SyncL6.create_user
    rw [h]
    simp [insertOne]
  · intro st current_user body salt h
    unfold AsyncL6.create_user
    rw [h]
    simp [insertOne]

/-- C3 witness: the amended theorem at the concrete duplicate input. -/
theorem c3_duplicate_username_rejected_400_witness :
    SyncL6.create_user
      [[("_id", Val.vOid "aaaaaaaaaaaaaaaaaaaaaaaa"),
        ("username", Val.vStr "alice"), ("userage", Val.vInt 30),
        ("password", Val.vStr "h"), ("role", Val.vStr "user")]]
      ⟨"alice", 22, "secret1", "user"⟩ "SALT"
      = (.httpError 400 "Username already exists",
         [[("_id", Val.vOid "aaaaaaaaaaaaaaaaaaaaaaaa"),
           ("username", Val.vStr "alice"), ("userage", Val.vInt 30),
           ("password", Val.vStr "h"), ("role", Val.vStr "user")]]) :=
  c3_duplicate_username_rejected_400.1 _ _ _
    [("_id", Val.vOid "aaaaaaaaaaaaaaaaaaaaaaaa"),
     ("username", Val.vStr "alice"), ("userage", Val.vInt 30),
     ("password", Val.vStr "h"), ("role", Val.vStr "user")] (by decide)

theorem deleteFirst_of_countBy_zero (st : Store) (key : String) (v : Val)
    (h : countBy st key v = 0) : deleteFirst st key v = (st, 0) := by
  induction st with
  | nil => rfl
  | cons d ds ih =>
      by_cases hd : getKey d key = some v
      · exfalso
        simp [countBy, List.filter_cons, hd] at h
      · have h' : countBy ds key v = 0 := by
          simpa [countBy, List.filter_cons, hd] using h
        simp [deleteFirst, hd, ih h']

theorem countBy_deleteFirst (st : Store) (key : String) (v : Val) :
    countBy (deleteFirst st key v).1 key v = countBy st key v - 1 := by
  induction st with
  | nil => rfl
  | cons d ds ih =>
      by_cases hd : getKey d key = some v
      · simp [deleteFirst, countBy, List.filter_cons, hd]
      · simp only [deleteFirst, hd, if_neg hd]
        simp [countBy, List.filter_cons, hd] at ih ⊢
        exact ih

/-- C7 counterexample: the synchronous Level 1 delete, called on an empty
store with a well formed identifier that matches no record, answers with
the success response instead of NotFoundError. -/
theorem c7_counterexample_delete_reports_success :
    SyncL1.delete_item ([] : Store) "aaaaaaaaaaaaaaaaaaaaaaaa"
      = (.ok ⟨some "User successfully Delted", true, none, none⟩, []) :=
  rfl

/-- C7 amended: the Level 1 asynchronous delete (which checks the deleted
count, like every later level) returns 404 NotFound with the store
unchanged for every valid identifier with no matching record — hence two
consecutive deletes of a nonexistent identifier both yield 404 — and after
a successful delete under the unique id invariant a repeated delete of the
same identifier yields 404; the Level 1 synchronous delete instead ignores
the deleted count and reports success whatever the store contents. -/
theorem c7_delete_nonexistent_yields_404 :
    (∀ (st : Store) (oid : String),
      isValidObjectId oid = true →
      countBy st "_id" (Val.vOid oid) = 0 →
      AsyncL1.delete_user st oid = (.httpError 404 "User not found", st)) ∧
    (∀ (st : Store) (oid : String) (resp : ResponseModel) (st2 : Store),
      isValidObjectId oid = true →
      countBy st "_id" (Val.vOid oid) ≤ 1 →
      AsyncL1.delete_user st oid = (.ok resp, st2) →
      AsyncL1.delete_user st2 oid
        = (.httpError 404 "User not found", st2)) ∧
    (∀ (st : Store) (oid : String),
      isValidObjectId oid = true →
      (SyncL1.delete_item st oid).1
        = .ok ⟨some "User successfully Delted", true, none, none⟩) := by
  refine ⟨?_, ?_, ?_⟩
  · intro st oid hv h0
    unfold AsyncL1.delete_user
    rw [hv]
    simp [deleteFirst_of_countBy_zero st "_id" (Val.vOid oid) h0]
  · intro st oid resp st2 hv hle hok
    unfold AsyncL1.delete_user at hok
    rw [hv] at hok
    dsimp only at hok
    split at hok
    · split at hok
      · exact absurd (congrArg Prod.fst hok) (by simp)
      · have hst2 : st2 = (deleteFirst st "_id" (Val.vOid oid)).1 :=
          (congrArg Prod.snd hok).symm
        have h0 : countBy st2 "_id" (Val.vOid oid) = 0 := by
          rw [hst2, countBy_deleteFirst]
          omega
        unfold AsyncL1.delete_user
        rw [hv]
        simp [deleteFirst_of_countBy_zero st2 "_id" (Val.vOid oid) h0]
    · simp_all
  · intro st oid hv
    unfold SyncL1.delete_item
    rw [hv]
    rfl

/-- C7 witness: the amended theorem at the empty store and a concrete valid
identifier. -/
theorem c7_delete_nonexistent_yields_404_witness :
    AsyncL1.delete_user ([] : Store) "aaaaaaaaaaaaaaaaaaaaaaaa"
      = (.httpError 404 "User not found", []) :=
  c7_delete_nonexistent_yields_404.1 [] "aaaaaaaaaaaaaaaaaaaaaaaa"
    (by decide) (by decide)

theorem getKey_setKey_ne (d : Doc) (k k2 : String) (v : Val) (h : k2 ≠ k) :
    getKey (setKey d k v) k2 = getKey d k2 := by
  induction d with
  | nil => simp [setKey, getKey, Ne.symm h]
  | cons kv d ih =>
      obtain ⟨k1, w⟩ := kv
      by_cases h1 : k1 = k
      · subst h1
        simp [setKey, getKey, Ne.symm h]
      · simp [setKey, getKey, h1]
        by_cases h2 : k1 = k2 <;> simp [h2, ih]

theorem getKey_applySet_not_mem (upd : List (String × Val)) (d : Doc)
    (k : String) (h : k ∉ upd.map Prod.fst) :
    getKey (applySet d upd) k = getKey d k := by
  induction upd generalizing d with
  | nil => rfl
  | cons kv tl ih =>
      obtain ⟨k1, v1⟩ := kv
      simp only [List.map_cons, List.mem_cons, not_or] at h
      have step : applySet d ((k1, v1) :: tl) = applySet (setKey d k1 v1) tl :=
        rfl
      rw [step, ih (setKey d k1 v1) h.2, getKey_setKey_ne d k1 k v1 h.1]

theorem updateFirst_preserves (st : Store) (key : String) (v : Val)
    (upd : List (String × Val)) (k : String)
    (h : k ∉ upd.map Prod.fst) :
    List.Forall₂ (fun d d' => getKey d' k = getKey d k) st
      (updateFirst st key v upd).1 := by
  induction st with
  | nil => exact List.Forall₂.nil
  | cons d ds ih =>
      by_cases hd : getKey d key = some v
      · simp only [updateFirst, if_pos hd]
        exact List.Forall₂.cons (getKey_applySet_not_mem upd d k h)
          (List.forall₂_same.mpr (fun a _ => rfl))
      · simp only [updateFirst, if_neg hd]
        exact List.Forall₂.cons rfl ih

theorem syncL2_update_user_preserves (st : Store) (uid : String)
    (body : SyncL2.UserUpdateModel) (k : String)
    (h : k ∉ (SyncL2.updateData body).map Prod.fst) :
    List.Forall₂ (fun d d' => getKey d' k = getKey d k) st
      (SyncL2.update_user st uid body).2 := by
  have hrefl : List.Forall₂ (fun d d' => getKey d' k = getKey d k) st st :=
    List.forall₂_same.mpr (fun a _ => rfl)
  have hupd := updateFirst_preserves st "_id" (Val.vOid uid)
    (SyncL2.updateData body) k h
  unfold SyncL2.update_user
  dsimp only
  split
  · split
    · exact hrefl
    · split
      · exact hupd
      · split
        · exact hupd
        · exact hupd
  · exact hrefl

theorem asyncL6_update_user_preserves (st : Store) (current_user : Doc)
    (uid : String) (body : AsyncL6.UserUpdateModel) (salt k : String)
    (h : k ∉ (AsyncL6.updateData body salt).map Prod.fst) :
    List.Forall₂ (fun d d' => getKey d' k = getKey d k) st
      (AsyncL6.update_user st current_user uid body salt).2 := by
  have hrefl : List.Forall₂ (fun d d' => getKey d' k = getKey d k) st st :=
    List.forall₂_same.mpr (fun a _ => rfl)
  have hupd := updateFirst_preserves st "_id" (Val.vOid uid)
    (AsyncL6.updateData body salt) k h
  unfold AsyncL6.update_user
  dsimp only
  split
  · split
    · exact hrefl
    · split
      · exact hrefl
      · split
        · exact hupd
        · split
          · exact hupd
          · exact hupd
  · exact hrefl

/-- C6: a partial update touches only the supplied fields: for the Level 2
synchronous update and the Level 6 asynchronous update, every field left
None in the request body has the same value in every stored record after
the update as before it, whichever branch the handler takes. -/
theorem c6_partial_update_preserves_unsupplied_fields :
    (∀ (st : Store) (uid : String) (body : SyncL2.UserUpdateModel),
      body.username = none →
      List.Forall₂
        (fun d d' => getKey d' "username" = getKey d "username") st
        (SyncL2.update_user st uid body).2) ∧
    (∀ (st : Store) (uid : String) (body : SyncL2.UserUpdateModel),
      body.userage = none →
      List.Forall₂
        (fun d d' => getKey d' "userage" = getKey d "userage") st
        (SyncL2.update_user st uid body).2) ∧
    (∀ (st : Store) (current_user : Doc) (uid : String)
      (body : AsyncL6.UserUpdateModel) (salt : String),
      body.username = none →
      List.Forall₂
        (fun d d' => getKey d' "username" = getKey d "username") st
        (AsyncL6.update_user st current_user uid body salt).2) ∧
    (∀ (st : Store) (current_user : Doc) (uid : String)
      (body : AsyncL6.UserUpdateModel) (salt : String),
      body.password = none →
      List.Forall₂
        (fun d d' => getKey d' "password" = getKey d "password") st
        (AsyncL6.update_user st current_user uid body salt).2) ∧
    (∀ (st : Store) (current_user : Doc) (uid : String)
      (body : AsyncL6.UserUpdateModel) (salt : String),
      body.userage = none →
      List.Forall₂
        (fun d d' => getKey d' "userage" = getKey d "userage") st
        (AsyncL6.update_user st current_user uid body salt).2) := by
  refine ⟨?_, ?_, ?_, ?_, ?_⟩
  · intro st uid body hb
    refine syncL2_update_user_preserves st uid body "username" ?_
    obtain ⟨bu, ba⟩ := body
    cases ba <;> simp_all [SyncL2.updateData]
  · intro st uid body hb
    refine syncL2_update_user_preserves st uid body "userage" ?_
    obtain ⟨bu, ba⟩ := body
    cases bu <;> simp_all [SyncL2.updateData]
  · intro st cu uid body salt hb
    refine asyncL6_update_user_preserves st cu uid body salt "username" ?_
    obtain ⟨bu, bp, ba⟩ := body
    cases bp <;> cases ba <;> simp_all [AsyncL6.updateData]
  · intro st cu uid body salt hb
    refine asyncL6_update_user_preserves st cu uid body salt "password" ?_
    obtain ⟨bu, bp, ba⟩ := body
    cases bu <;> cases ba <;> simp_all [AsyncL6.updateData]
  · intro st cu uid body salt hb
    refine asyncL6_update_user_preserves st cu uid body salt "userage" ?_
    obtain ⟨bu, bp, ba⟩ := body
    cases bu <;> cases bp <;> simp_all [AsyncL6.updateData]

/-- C6 witness: a concrete one record store updated with only a username,
through the claim theorem: the userage value is untouched. -/
theorem c6_partial_update_preserves_unsupplied_fields_witness :
    List.Forall₂ (fun d d' => getKey d' "userage" = getKey d "userage")
      [[("_id", Val.vOid "aaaaaaaaaaaaaaaaaaaaaaaa"),
        ("username", Val.vStr "bob"), ("userage", Val.vInt 30)]]
      (SyncL2.update_user
        [[("_id", Val.vOid "aaaaaaaaaaaaaaaaaaaaaaaa"),
          ("username", Val.vStr "bob"), ("userage", Val.vInt 30)]]
        "aaaaaaaaaaaaaaaaaaaaaaaa" ⟨some "neo", none⟩).2 :=
  c6_partial_update_preserves_unsupplied_fields.2.1 _ _
    ⟨some "neo", none⟩ rfl

theorem identifiesBcrypt_bcryptHash (salt pw : String) :
    Passlib.identifiesBcrypt (Passlib.bcryptHash salt pw) = true := by
  have hdata : (Passlib.bcryptHash salt pw).data
      = Passlib.bcryptHead.data
        ++ (salt.data ++ (Passlib.bcryptDigest salt pw).data) := by
    rw [show (Passlib.bcryptHash salt pw).data
        = (Passlib.bcryptHead.data ++ salt.data)
          ++ (Passlib.bcryptDigest salt pw).data from rfl,
      List.append_assoc]
  simp only [Passlib.identifiesBcrypt, String.take_eq, hdata,
    decide_eq_true_eq]
  rw [List.take_append_of_le_length (by decide)]
  decide

/-- C9 counterexample: verification against the malformed stored hash
nothash raises UnknownHashError (the context cannot identify the scheme)
instead of returning false as the claim states. -/
theorem c9_counterexample_malformed_hash_raises :
    HashScript.verify_password_bcrypt_only "secret1" "nothash"
      = .error "UnknownHashError" := rfl

/-- C9 amended: hashing never fails and always yields a hash the context
identifies; for a stored hash the context identifies, verification returns
a boolean and never raises — in particular it returns false on a failed
check; for a stored hash the context cannot identify (a malformed stored
hash), verification raises UnknownHashError instead of returning false. -/
theorem c9_verify_error_behavior :
    (∀ salt password : String,
      Passlib.identifiesBcrypt
        (HashScript.hash_password_bcrypt_only salt password) = true) ∧
    (∀ password h : String, Passlib.identifiesBcrypt h = true →
      HashScript.verify_password_bcrypt_only password h
        = .ok (Passlib.bcryptCheck password h)) ∧
    (∀ password h : String, Passlib.identifiesBcrypt h = true →
      Passlib.bcryptCheck password h = false →
      HashScript.verify_password_bcrypt_only password h = .ok false) ∧
    (∀ password h : String, Passlib.identifiesBcrypt h = false →
      HashScript.verify_password_bcrypt_only password h
        = .error "UnknownHashError") := by
  refine ⟨?_, ?_, ?_, ?_⟩
  · intro salt password
    exact identifiesBcrypt_bcryptHash salt password
  · intro password h hid
    unfold HashScript.verify_password_bcrypt_only Passlib.contextVerify
    rw [hid]
    rfl
  · intro password h hid hchk
    unfold HashScript.verify_password_bcrypt_only Passlib.contextVerify
    rw [hid, hchk]
    rfl
  · intro password h hid
    unfold HashScript.verify_password_bcrypt_only Passlib.contextVerify
    rw [hid]
    rfl

set_option maxRecDepth 10000 in
/-- C9 witness: a mismatching password against a well formed stored hash
returns false without raising, through the claim theorem. -/
theorem c9_verify_error_behavior_witness :
    HashScript.verify_password_bcrypt_only "wrong"
      (Passlib.bcryptHash "ABCDEFGHIJKLMNOPQRSTUV" "right") = .ok false :=
  c9_verify_error_behavior.2.2.1 "wrong"
    (Passlib.bcryptHash "ABCDEFGHIJKLMNOPQRSTUV" "right")
    (identifiesBcrypt_bcryptHash "ABCDEFGHIJKLMNOPQRSTUV" "right")
    (by decide)

/-- C10: the login of the synchronous Level 6 module and of the
asynchronous Level 4 module produce the same observable failure for an
unknown username as for a known username with a failing password check:
the same 401 status with the same detail string, so the response does not
reveal whether the username exists. -/
theorem c10_login_username_indistinguishable :
    (∀ (st1 : Store) (u1 p1 : String) (st2 : Store) (u2 p2 : String)
      (d : Doc) (h : String),
      findOneBy st1 "username" (Val.vStr u1) = none →
      findOneBy st2 "username" (Val.vStr u2) = some d →
      getKey d "password" = some (Val.vStr h) →
      Passlib.contextVerify p2 h = .ok false →
      SyncL6.login st1 u1 p1 = .httpError 401 "Invalid credentials" ∧
      SyncL6.login st2 u2 p2 = .httpError 401 "Invalid credentials") ∧
    (∀ (st1 : Store) (u1 p1 : String) (st2 : Store) (u2 p2 : String)
      (d : Doc) (h : String),
      findOneBy st1 "username" (Val.vStr u1) = none →
      findOneBy st2 "username" (Val.vStr u2) = some d →
      getKey d "password" = some (Val.vStr h) →
      Passlib.contextVerify p2 h = .ok false →
      AsyncL4.login st1 u1 p1
        = .httpError 401 "Invalid username or password" ∧
      AsyncL4.login st2 u2 p2
        = .httpError 401 "Invalid username or password") := by
  constructor
  · intro st1 u1 p1 st2 u2 p2 d h h1 h2 h3 h4
    constructor
    · unfold SyncL6.login
      rw [h1]
    · unfold SyncL6.login
      rw [h2]
      dsimp only
      rw [h3]
      dsimp only
      unfold SyncL6.verify_password
      rw [h4]
  · intro st1 u1 p1 st2 u2 p2 d h h1 h2 h3 h4
    constructor
    · unfold AsyncL4.login
      rw [h1]
    · unfold AsyncL4.login
      rw [h2]
      dsimp only
      rw [h3]
      dsimp only
      unfold AsyncL4.verify_password
      rw [h4]

set_option maxRecDepth 10000 in
/-- C10 witness: an unknown username on the empty store and alice with a
wrong password on a one record store both answer 401 Invalid credentials,
through the claim theorem. -/
theorem c10_login_username_indistinguishable_witness :
    SyncL6.login ([] : Store) "ghost" "whatever"
      = .httpError 401 "Invalid credentials" ∧
    SyncL6.login
      [[("_id", Val.vOid "cccccccccccccccccccccccc"),
        ("username", Val.vStr "alice"), ("userage", Val.vInt 30),
        ("password", Val.vStr
          (Passlib.bcryptHash "ABCDEFGHIJKLMNOPQRSTUV" "right")),
        ("role", Val.vStr "user")]] "alice" "wrong"
      = .httpError 401 "Invalid credentials" :=
  c10_login_username_indistinguishable.1 [] "ghost" "whatever"
    [[("_id", Val.vOid "cccccccccccccccccccccccc"),
      ("username", Val.vStr "alice"), ("userage", Val.vInt 30),
      ("password", Val.vStr
        (Passlib.bcryptHash "ABCDEFGHIJKLMNOPQRSTUV" "right")),
      ("role", Val.vStr "user")]] "alice" "wrong"
    [("_id", Val.vOid "cccccccccccccccccccccccc"),
     ("username", Val.vStr "alice"), ("userage", Val.vInt 30),
     ("password", Val.vStr
       (Passlib.bcryptHash "ABCDEFGHIJKLMNOPQRSTUV" "right")),
     ("role", Val.vStr "user")]
    (Passlib.bcryptHash "ABCDEFGHIJKLMNOPQRSTUV" "right")
    rfl (by decide) rfl
    (by
      unfold Passlib.contextVerify
      rw [identifiesBcrypt_bcryptHash]
      rw [show Passlib.bcryptCheck "wrong"
        (Passlib.bcryptHash "ABCDEFGHIJKLMNOPQRSTUV" "right") = false by
          decide]
      rfl)

theorem insertLe_perm (le : Doc → Doc → Bool) (d : Doc) :
    ∀ l : List Doc, (insertLe le d l).Perm (d :: l)
  | [] => List.Perm.refl _
  | e :: es => by
      unfold insertLe
      by_cases h : le d e = true
      · rw [if_pos h]
      · rw [if_neg h]
        exact ((insertLe_perm le d es).cons e).trans
          (List.Perm.swap d e es)

theorem sortDocs_perm (le : Doc → Doc → Bool) :
    ∀ l : List Doc, (sortDocs le l).Perm l
  | [] => List.Perm.refl _
  | d :: ds =>
      (insertLe_perm le d (sortDocs le ds)).trans
        ((sortDocs_perm le ds).cons d)

theorem listMatches_none_true (d : Doc) :
    AsyncL3.listMatches none none none d = true := rfl

theorem filter_listMatches_none (st : Store) :
    st.filter (AsyncL3.listMatches none none none) = st :=
  List.filter_eq_self.mpr (fun d _ => listMatches_none_true d)

/-- C8: paging the unfiltered, sorted listing of the asynchronous Level 3
module with skip zero limit N and then skip N limit N yields two pages
that are disjoint (under the store invariant that serialized records are
pairwise distinct) and order consistent: their concatenation is exactly
the first two N records of the full sorted result set, serialized. -/
theorem c8_pagination_disjoint_order_consistent (st : Store)
    (sort_by sort_order : String) (N : Nat) (hN : 1 ≤ N)
    (hnd : (st.map AsyncL3.serialize_user).Nodup) :
    List.Disjoint
      (outcomeDocs
        (AsyncL3.read_all_users st none none none 0 N sort_by sort_order))
      (outcomeDocs
        (AsyncL3.read_all_users st none none none N N sort_by
          sort_order)) ∧
    outcomeDocs
      (AsyncL3.read_all_users st none none none 0 N sort_by sort_order)
      ++ outcomeDocs
        (AsyncL3.read_all_users st none none none N N sort_by sort_order)
      = ((sortDocs (fieldLe sort_by (AsyncL3.dirOf sort_order)) st).take
          (2 * N)).map AsyncL3.serialize_user := by
  have hp1 : outcomeDocs
      (AsyncL3.read_all_users st none none none 0 N sort_by sort_order)
      = ((sortDocs (fieldLe sort_by (AsyncL3.dirOf sort_order)) st).take
          N).map AsyncL3.serialize_user := by
    unfold AsyncL3.read_all_users
    simp [outcomeDocs, RData.toDocs, filter_listMatches_none]
  have hp2 : outcomeDocs
      (AsyncL3.read_all_users st none none none N N sort_by sort_order)
      = (((sortDocs (fieldLe sort_by (AsyncL3.dirOf sort_order)) st).drop
          N).take N).map AsyncL3.serialize_user := by
    unfold AsyncL3.read_all_users
    simp [outcomeDocs, RData.toDocs, filter_listMatches_none]
  have hcat : outcomeDocs
      (AsyncL3.read_all_users st none none none 0 N sort_by sort_order)
      ++ outcomeDocs
        (AsyncL3.read_all_users st none none none N N sort_by sort_order)
      = ((sortDocs (fieldLe sort_by (AsyncL3.dirOf sort_order)) st).take
          (2 * N)).map AsyncL3.serialize_user := by
    rw [hp1, hp2, ← List.map_append, two_mul,
      List.take_add (sortDocs (fieldLe sort_by (AsyncL3.dirOf sort_order))
        st) N N]
  refine ⟨?_, hcat⟩
  have hperm : ((sortDocs (fieldLe sort_by (AsyncL3.dirOf sort_order))
      st).map AsyncL3.serialize_user).Perm
      (st.map AsyncL3.serialize_user) :=
    (sortDocs_perm (fieldLe sort_by (AsyncL3.dirOf sort_order)) st).map
      AsyncL3.serialize_user
  have hnds : ((sortDocs (fieldLe sort_by (AsyncL3.dirOf sort_order))
      st).map AsyncL3.serialize_user).Nodup :=
    hperm.symm.nodup hnd
  have hndt : (((sortDocs (fieldLe sort_by (AsyncL3.dirOf sort_order))
      st).take (2 * N)).map AsyncL3.serialize_user).Nodup := by
    rw [List.map_take]
    exact hnds.sublist (List.take_sublist (2 * N) _)
  have hnda : (outcomeDocs
      (AsyncL3.read_all_users st none none none 0 N sort_by sort_order)
      ++ outcomeDocs
        (AsyncL3.read_all_users st none none none N N sort_by
          sort_order)).Nodup := by
    rw [hcat]
    exact hndt
  exact (List.nodup_append.mp hnda).2.2

/-- C8 witness: a two record store, limit one, sorted by username
ascending, through the claim theorem. -/
theorem c8_pagination_disjoint_order_consistent_witness :
    List.Disjoint
      (outcomeDocs (AsyncL3.read_all_users
        [[("_id", Val.vOid "aaaaaaaaaaaaaaaaaaaaaaaa"),
          ("username", Val.vStr "alice"), ("userage", Val.vInt 30)],
         [("_id", Val.vOid "bbbbbbbbbbbbbbbbbbbbbbbb"),
          ("username", Val.vStr "bob"), ("userage", Val.vInt 25)]]
        none none none 0 1 "username" "asc"))
      (outcomeDocs (AsyncL3.read_all_users
        [[("_id", Val.vOid "aaaaaaaaaaaaaaaaaaaaaaaa"),
          ("username", Val.vStr "alice"), ("userage", Val.vInt 30)],
         [("_id", Val.vOid "bbbbbbbbbbbbbbbbbbbbbbbb"),
          ("username", Val.vStr "bob"), ("userage", Val.vInt 25)]]
        none none none 1 1 "username" "asc")) ∧
    outcomeDocs (AsyncL3.read_all_users
      [[("_id", Val.vOid "aaaaaaaaaaaaaaaaaaaaaaaa"),
        ("username", Val.vStr "alice"), ("userage", Val.vInt 30)],
       [("_id", Val.vOid "bbbbbbbbbbbbbbbbbbbbbbbb"),
        ("username", Val.vStr "bob"), ("userage", Val.vInt 25)]]
      none none none 0 1 "username" "asc")
      ++ outcomeDocs (AsyncL3.read_all_users
        [[("_id", Val.vOid "aaaaaaaaaaaaaaaaaaaaaaaa"),
          ("username", Val.vStr "alice"), ("userage", Val.vInt 30)],
         [("_id", Val.vOid "bbbbbbbbbbbbbbbbbbbbbbbb"),
          ("username", Val.vStr "bob"), ("userage", Val.vInt 25)]]
        none none none 1 1 "username" "asc")
      = ((sortDocs (fieldLe "username" (AsyncL3.dirOf "asc"))
          [[("_id", Val.vOid "aaaaaaaaaaaaaaaaaaaaaaaa"),
            ("username", Val.vStr "alice"), ("userage", Val.vInt 30)],
           [("_id", Val.vOid "bbbbbbbbbbbbbbbbbbbbbbbb"),
            ("username", Val.vStr "bob"), ("userage", Val.vInt 25)]]).take
          (2 * 1)).map AsyncL3.serialize_user :=
  c8_pagination_disjoint_order_consistent
    [[("_id", Val.vOid "aaaaaaaaaaaaaaaaaaaaaaaa"),
      ("username", Val.vStr "alice"), ("userage", Val.vInt 30)],
     [("_id", Val.vOid "bbbbbbbbbbbbbbbbbbbbbbbb"),
      ("username", Val.vStr "bob"), ("userage", Val.vInt 25)]]
    "username" "asc" 1 (by decide) (by decide)
